import Mathlib

/-!
Verification of the `pip-compile` pipeline (`piptools/scripts/compile.py`)
against its natural-language specification.

The source is a single imperative script.  We embed it shallowly:

* Python strings are Lean `String`s; Python code-point string comparison
  and `str.lower` are re-implemented over the underlying character lists
  (`charListLe`, `pyLower`) so that every definition evaluates by kernel
  reduction.
* The stable Python `sorted` is modelled by `List.insertionSort`, which is
  a stable sort, hence extensionally equal to any stable sort (in
  particular timsort) for the same total preorder.
* The observable behaviour of the script is the stream of lines it sends
  to its logger (tagged by the logging level used) together with the
  process exit code; `cli` builds that stream functionally, following the
  source line by line.  Collaborators living outside the analysed file
  (the repository object, the resolver and its reverse-dependency map,
  `format_requirement`) enter as parameters or, where the claims need
  their behaviour, as explicitly spec-modelled definitions.
-/

/-! ## Definitions -/

/-- Python `<=` on strings, on the underlying character lists:
code-point lexicographic order. -/
def charListLe : List Char → List Char → Bool
  | [], _ => true
  | _ :: _, [] => false
  | a :: as, b :: bs => if a = b then charListLe as bs else decide (a < b)

/-- Python `<=` on strings (code-point lexicographic). -/
def pyStrLe (a b : String) : Bool := charListLe a.data b.data

/-- Python `str.lower` (ASCII case folding, which is all the pipeline
inputs use). -/
def pyLower (s : String) : String := ⟨s.data.map Char.toLower⟩

/-- `os.path.basename`: the suffix after the last `/`. -/
def basename (s : String) : String :=
  ⟨s.data.foldl (fun acc c => if c = '/' then [] else acc ++ [c]) []⟩

/-- A resolved requirement as the script consumes it: `result.name`
(the project name), `str(result.req)` (the textual name-plus-pin
representation used both as sort key and as rendered text), and
`result.editable`. -/
structure Result where
  name : String
  reqStr : String
  editable : Bool
deriving DecidableEq, Repr

/-- One line of observable output, tagged with the channel the script used
(`log.debug` / `log.info` / `log.warning` / `log.error`, and the
module-level bare `print`).  The output document proper (header, index
directives, requirement lines) is exactly the `info` lines. -/
inductive OutLine where
  | debug : String → OutLine
  | info : String → OutLine
  | warning : String → OutLine
  | error : String → OutLine
  | plain : String → OutLine
deriving DecidableEq, Repr

/-- `true` exactly on the lines that belong to the output document
(everything the script emits with `log.info`). -/
def OutLine.isDocument : OutLine → Bool
  | .info _ => true
  | _ => false

/-- The command-line options of `cli`, in source order. -/
structure Config where
  verbose : Bool
  dryRun : Bool
  pre : Bool
  rebuild : Bool
  findLinks : List String
  indexUrl : Option String
  extraIndexUrls : List String
  noHeader : Bool
  annotate : Bool
  srcFile : String
deriving DecidableEq, Repr

/-- The external collaborators of one run: the default index URL and the
initial finder state of the repository object (`PyPIRepository` is outside
the analysed file), the outcome of `Resolver(...).resolve()`, and the
reverse-dependency map `resolver.reverse_dependencies(results)` (a
name-indexed set of parent names, given as a list). -/
structure RunEnv where
  defaultIndexUrl : String
  initialIndexUrls : List String
  initialFindLinks : List String
  resolve : Except String (List Result)
  revDeps : String → List String

/-- The index URL list of the finder after `cli` configures it:
`[index_url]` replaces the initial list when the option is truthy, then
the extra index URLs are appended (source lines 55–57). -/
def configuredIndexUrls (env : RunEnv) (cfg : Config) : List String :=
  (match cfg.indexUrl with
   | some u => if u = "" then env.initialIndexUrls else [u]
   | none => env.initialIndexUrls) ++ cfg.extraIndexUrls

/-- The directive/URL pairs produced by the loop over
`zip(chain(['--index-url'], cycle(['--extra-index-url'])), index_urls)`
(source lines 98–102): position 0 is paired with `--index-url`, every
later position with `--extra-index-url`; entries equal to the default
index URL are skipped; the URL that is printed is
`repository.finder.index_urls[0]`, the first entry of the list, exactly as
in the source. -/
def emitIndexPairs (defaultUrl : String) (urls : List String) :
    List (String × String) :=
  urls.enum.filterMap fun p =>
    if p.2 = defaultUrl then none
    else some ((if p.1 = 0 then "--index-url" else "--extra-index-url"),
               urls.headD "")

/-- The emitted directive lines, `'{} {}'.format(directive, index_urls[0])`. -/
def emitIndexDirectives (defaultUrl : String) (urls : List String) :
    List String :=
  (emitIndexPairs defaultUrl urls).map fun p => p.1 ++ " " ++ p.2

/-- Modelled from the spec: `PyPIRepository.DEFAULT_INDEX_URL`, the
well-known default public index; the repositories module is not among the
analysed sources.  No theorem depends on the particular spelling. -/
def DEFAULT_INDEX_URL : String := "https://pypi.python.org/simple"

/-- Python `sorted` on a list of strings: the stable sort for the
code-point order (`List.insertionSort` is stable, and the stable sort of a
list under a total preorder is unique, so this is extensionally the
Python timsort). -/
def pySortedStrings (l : List String) : List String :=
  l.insertionSort (fun a b => pyStrLe a b = true)

/-- `', '.join(sorted(rev_deps.get(result.name, [])))` for one result
(source line 137). -/
def annotationJoin (parents : List String) : String :=
  String.intercalate ", " (pySortedStrings parents)

/-- The per-result annotation value computed by the output loop (source
lines 134–139): `None` when annotations are off; otherwise the
comma-joined sorted parent list, prefixed with `via ` when non-empty. -/
def annotationFor (annotate : Bool) (revDeps : String → List String)
    (r : Result) : Option String :=
  if annotate then
    let a := annotationJoin (revDeps r.name)
    some (if a = "" then a else "via " ++ a)
  else none

/-- Modelled from the spec: `format_requirement` lives in the utilities
module, which is not among the analysed sources.  Per the spec (§4.4),
each rendered line is the requirement text, suffixed with `    # <text>`
exactly when an annotation is present and non-empty (the caller passes the
text already carrying its `via ` prefix). -/
def format_requirement (r : Result) (ann : Option String) : String :=
  match ann with
  | none => r.reqStr
  | some a => if a = "" then r.reqStr else r.reqStr ++ "    # " ++ a

/-- The sort key `(not r.editable, str(r.req).lower())` of source line 86. -/
def sortKey (r : Result) : Bool × String := (!r.editable, pyLower r.reqStr)

/-- Python `<=` on the key pairs (lexicographic on the tuple, with
`False < True`). -/
def pairLe (p q : Bool × String) : Bool :=
  if p.1 = q.1 then pyStrLe p.2 q.2 else (!p.1 && q.1)

/-- The comparison underlying
`sorted(results, key=lambda r: (not r.editable, str(r.req).lower()))`. -/
def resultLe (a b : Result) : Prop := pairLe (sortKey a) (sortKey b) = true

instance : DecidableRel resultLe := fun _ _ =>
  inferInstanceAs (Decidable (_ = true))

/-- `sorted(results, key=...)` (source line 86): the stable sort of the
resolved set under `resultLe`. -/
def formattedResults (results : List Result) : List Result :=
  results.insertionSort resultLe

/-- The `log.debug` lines listing the configured indexes
(source lines 60–62). -/
def indexDebugLines (urls : List String) : List OutLine :=
  OutLine.debug "Using indexes:"
    :: urls.map (fun u => OutLine.debug ("  " ++ u))

/-- The `log.debug` lines listing find-links locations, emitted only when
the find-links list is non-empty (source lines 64–68). -/
def findLinksDebugLines (findLinks : List String) : List OutLine :=
  match findLinks with
  | [] => []
  | fs => OutLine.debug "" :: OutLine.debug "Configuration:"
      :: fs.map (fun f => OutLine.debug ("  -f " ++ f))

/-- The header block (source lines 91–97). -/
def headerLines (srcFile : String) : List OutLine :=
  [OutLine.info "#",
   OutLine.info "# This file is autogenerated by pip-compile",
   OutLine.info ("# Make changes in " ++ basename srcFile
     ++ ", then run this to update:"),
   OutLine.info "#",
   OutLine.info ("#    pip-compile " ++ basename srcFile),
   OutLine.info "#"]

/-- The body of `cli` (source lines 40–143), as a function from the option
values and the external collaborators to the exit code (`none` means the
script fell off the end, i.e. exit 0) and the emitted line stream,
translated statement by statement from the source. -/
def cli (env : RunEnv) (cfg : Config) : Option Nat × List OutLine :=
  if cfg.srcFile = "" then
    (some 2, [OutLine.warning "No input files to process."])
  else
    let urls := configuredIndexUrls env cfg
    let findLinks := env.initialFindLinks ++ cfg.findLinks
    let debugLines := indexDebugLines urls ++ findLinksDebugLines findLinks
    match env.resolve with
    | .error e => (some 2, debugLines ++ [OutLine.error e])
    | .ok results =>
      let pre := debugLines ++ [OutLine.debug ""]
      let header := if cfg.noHeader then [] else headerLines cfg.srcFile
      let directives :=
        (emitIndexDirectives env.defaultIndexUrl urls).map OutLine.info
      let body := (formattedResults results).map fun r =>
        OutLine.info
          (format_requirement r (annotationFor cfg.annotate env.revDeps r))
      let dryRunLines :=
        if cfg.dryRun then [OutLine.warning "Dry-run, so nothing updated."]
        else []
      (none, pre ++ header ++ directives ++ body ++ dryRunLines)

/-- The message printed by the module-level version gate
(source lines 10–11). -/
def pipUpgradeMessage (versionStr : String) : String :=
  "pip-compile requires at least version 6.1 of pip (" ++ versionStr
    ++ " found), perhaps run `pip install --upgrade pip`?"

/-- The whole program: the module-level gate
`if not tuple(int(digit) for digit in pip.__version__.split('.')[:2]) >= (6, 1)`
runs first (the components are already converted to integers; the Python
tuple order is the lexicographic list order), printing the upgrade message
and exiting with status 4; otherwise `cli` runs (source lines 9–12). -/
def pipCompileMain (pipComponents : List Nat) (pipVersionStr : String)
    (env : RunEnv) (cfg : Config) : Option Nat × List OutLine :=
  if ¬ ([6, 1] ≤ pipComponents.take 2) then
    (some 4, [OutLine.plain (pipUpgradeMessage pipVersionStr)])
  else cli env cfg

/-- The per-result annotation text as §4.2 of the spec words it — a
case-insensitive lexicographic sort of the parent names — written out only
to compare the wording of the spec against the code. -/
def specAnnotationJoin (parents : List String) : String :=
  String.intercalate ", "
    (parents.insertionSort (fun a b => pyStrLe (pyLower a) (pyLower b) = true))

/-- Concrete resolved entry for witnesses: sorts after `wRes1`/`wRes2`. -/
def wRes0 : Result := ⟨"zebra", "zebra==9.0", false⟩

/-- Concrete resolved entry for witnesses: same sort key as `wRes2`. -/
def wRes1 : Result := ⟨"first", "Pkg==1.0", false⟩

/-- Concrete resolved entry for witnesses: same sort key as `wRes1`. -/
def wRes2 : Result := ⟨"second", "pkg==1.0", false⟩

/-- A concrete option record for witnesses (all flags off, default source
file name). -/
def sampleCfg : Config :=
  ⟨false, false, false, false, [], none, [], false, false, "requirements.in"⟩

/-- A concrete collaborator record for witnesses: resolution succeeds. -/
def sampleOkEnv : RunEnv :=
  ⟨DEFAULT_INDEX_URL, [DEFAULT_INDEX_URL], [],
   .ok [wRes0, wRes1, wRes2], fun _ => []⟩

/-- A concrete collaborator record for witnesses: resolution fails. -/
def sampleFailEnv : RunEnv :=
  ⟨DEFAULT_INDEX_URL, [DEFAULT_INDEX_URL], [],
   .error "Could not find a version that matches flake8", fun _ => []⟩

/-! ## Order lemmas for the embedded comparisons -/

theorem charListLe_refl (a : List Char) : charListLe a a = true := by
  induction a with
  | nil => rfl
  | cons x xs ih => simp [charListLe, ih]

theorem charListLe_total (a b : List Char) :
    charListLe a b || charListLe b a := by
  induction a generalizing b with
  | nil => simp [charListLe]
  | cons x xs ih =>
    cases b with
    | nil => simp [charListLe]
    | cons y ys =>
      simp only [charListLe]
      by_cases h : x = y
      · simp [h, charListLe, ih ys]
      · have h' : ¬ y = x := fun hh => h hh.symm
        simp only [if_neg h, if_neg h']
        rcases lt_or_gt_of_ne (show x ≠ y from h) with hlt | hgt
        · simp [hlt]
        · simp [hgt, not_lt_of_gt hgt]

theorem charListLe_trans (a b c : List Char)
    (hab : charListLe a b = true) (hbc : charListLe b c = true) :
    charListLe a c = true := by
  induction a generalizing b c with
  | nil => rfl
  | cons x xs ih =>
    cases b with
    | nil => simp [charListLe] at hab
    | cons y ys =>
      cases c with
      | nil => simp [charListLe] at hbc
      | cons z zs =>
        simp only [charListLe] at hab hbc ⊢
        by_cases hxy : x = y
        · subst hxy
          by_cases hxz : x = z
          · subst hxz
            simp only [if_pos rfl] at hab hbc ⊢
            exact ih ys zs hab hbc
          · simp only [if_pos rfl] at hab
            simp only [if_neg hxz] at hbc ⊢
            exact hbc
        · by_cases hyz : y = z
          · subst hyz
            simp only [if_neg hxy] at hab ⊢
            exact hab
          · simp only [if_neg hxy] at hab
            simp only [if_neg hyz] at hbc
            have hx : x < y := of_decide_eq_true hab
            have hy : y < z := of_decide_eq_true hbc
            have hxz : x < z := lt_trans hx hy
            have : ¬ x = z := ne_of_lt hxz
            simp [this, hxz]

theorem pyStrLe_refl (a : String) : pyStrLe a a = true :=
  charListLe_refl a.data

theorem pyStrLe_total (a b : String) : pyStrLe a b || pyStrLe b a :=
  charListLe_total a.data b.data

theorem pyStrLe_trans (a b c : String) (hab : pyStrLe a b = true)
    (hbc : pyStrLe b c = true) : pyStrLe a c = true :=
  charListLe_trans a.data b.data c.data hab hbc

theorem resultLe_total : ∀ a b : Result, resultLe a b ∨ resultLe b a := by
  intro a b
  unfold resultLe pairLe
  by_cases h : (sortKey a).1 = (sortKey b).1
  · simp only [if_pos h, if_pos h.symm]
    rcases Bool.or_eq_true_iff.mp (pyStrLe_total (sortKey a).2 (sortKey b).2)
      with h' | h'
    · exact Or.inl h'
    · exact Or.inr h'
  · have h' : ¬ (sortKey b).1 = (sortKey a).1 := fun hh => h hh.symm
    simp only [if_neg h, if_neg h']
    cases ha : (sortKey a).1 <;> cases hb : (sortKey b).1 <;> simp_all

theorem resultLe_trans : ∀ a b c : Result,
    resultLe a b → resultLe b c → resultLe a c := by
  intro a b c hab hbc
  unfold resultLe pairLe at *
  by_cases h1 : (sortKey a).1 = (sortKey b).1 <;>
    by_cases h2 : (sortKey b).1 = (sortKey c).1
  · have h3 : (sortKey a).1 = (sortKey c).1 := h1.trans h2
    simp only [if_pos h1] at hab
    simp only [if_pos h2] at hbc
    simp only [if_pos h3]
    exact pyStrLe_trans _ _ _ hab hbc
  · have h3 : ¬ (sortKey a).1 = (sortKey c).1 := fun hh => h2 (h1.symm.trans hh)
    simp only [if_neg h2] at hbc
    simp only [if_neg h3]
    rw [← h1] at hbc
    exact hbc
  · have h3 : ¬ (sortKey a).1 = (sortKey c).1 := fun hh => h1 (hh.trans h2.symm)
    simp only [if_neg h1] at hab
    simp only [if_neg h3]
    rw [h2] at hab
    exact hab
  · simp only [if_neg h1] at hab
    simp only [if_neg h2] at hbc
    cases ha : (sortKey a).1 <;> cases hb : (sortKey b).1 <;>
      cases hc : (sortKey c).1 <;> simp_all

theorem resultLe_editable {a b : Result} (h : resultLe a b)
    (hb : b.editable = true) : a.editable = true := by
  by_contra ha
  have ha' : a.editable = false := by revert ha; cases a.editable <;> simp
  simp [resultLe, pairLe, sortKey, ha', hb] at h

theorem resultLe_text {a b : Result} (h : resultLe a b)
    (hab : a.editable = b.editable) :
    pyStrLe (pyLower a.reqStr) (pyLower b.reqStr) = true := by
  simp only [resultLe, pairLe, sortKey, hab] at h
  simpa using h

theorem resultLe_of_sortKey_eq {a b : Result} (h : sortKey a = sortKey b) :
    resultLe a b := by
  unfold resultLe
  rw [h]
  simp [pairLe, pyStrLe_refl]

/-! ## Helper lemmas for the claim theorems -/

theorem emitPairs_enumFrom_snd (d h : String) :
    ∀ (l : List String) (n : Nat),
    ((l.enumFrom n).filterMap fun p =>
        if p.2 = d then none
        else some ((if p.1 = 0 then "--index-url" else "--extra-index-url"),
          h)).map Prod.snd
      = List.replicate ((l.filter (fun u => !(u == d))).length) h := by
  intro l
  induction l with
  | nil => intro n; rfl
  | cons x xs ih =>
    intro n
    by_cases hx : x = d
    · simp [List.enumFrom, List.filterMap_cons, hx, ih (n + 1)]
    · simp [List.enumFrom, List.filterMap_cons, hx, ih (n + 1),
        List.replicate_succ]

theorem indexDebugLines_no_document (urls : List String) :
    ∀ l ∈ indexDebugLines urls, l.isDocument = false := by
  intro l hl
  rcases List.mem_cons.mp hl with h | h
  · subst h; rfl
  · obtain ⟨u, _, h⟩ := List.mem_map.mp h
    subst h; rfl

theorem findLinksDebugLines_no_document (fls : List String) :
    ∀ l ∈ findLinksDebugLines fls, l.isDocument = false := by
  intro l hl
  cases fls with
  | nil => simp [findLinksDebugLines] at hl
  | cons f fs =>
    have he : findLinksDebugLines (f :: fs)
        = OutLine.debug "" :: OutLine.debug "Configuration:"
          :: (f :: fs).map (fun x => OutLine.debug ("  -f " ++ x)) := rfl
    rw [he] at hl
    rcases List.mem_cons.mp hl with h | h
    · subst h; rfl
    · rcases List.mem_cons.mp h with h | h
      · subst h; rfl
      · obtain ⟨u, _, h⟩ := List.mem_map.mp h
        subst h; rfl

/-! ## Claims C1–C3: index directive emission -/

/-- C1 (counterexample): with the URL list `["https://x", "https://x"]`
(no entry equal to the default), the emitted directives name the URL
`https://x` twice — the emitter performs no deduplication, so a distinct
URL can appear more than once, refuting the claim that every distinct URL
appears at most once. -/
theorem index_dedup_counterexample :
    ¬ (((emitIndexPairs DEFAULT_INDEX_URL
          ["https://x", "https://x"]).map Prod.snd).Nodup) := by
  decide

/-- C1 (amended): the emitter deduplicates nothing.  It emits exactly one
directive per configured URL that differs from the default (duplicates
included), and — because the source prints `index_urls[0]` rather than the
loop variable — every emitted directive names the first URL of the
list. -/
theorem index_directives_no_dedup (d : String) (urls : List String) :
    (emitIndexPairs d urls).map Prod.snd
      = List.replicate ((urls.filter (fun u => !(u == d))).length)
          (urls.headD "") := by
  unfold emitIndexPairs
  show ((urls.enumFrom 0).filterMap _).map Prod.snd = _
  exact emitPairs_enumFrom_snd d (urls.headD "") urls 0

/-- C2 (the code evaluated at the failing input): with the URL list
`[DEFAULT_INDEX_URL, "https://x"]` the loop skips the default at position
0, reaches `https://x` at position 1 — and then prints `index_urls[0]`,
which is the default index URL.  A URL equal to the default is therefore
emitted inside a directive, contradicting the claim; the guard that skips
default-valued entries shows that the intent was to print the URL of the
loop variable, so this is a slip in the code, not in the claim. -/
theorem default_index_url_emitted :
    emitIndexPairs DEFAULT_INDEX_URL [DEFAULT_INDEX_URL, "https://x"]
      = [("--extra-index-url", DEFAULT_INDEX_URL)] := rfl

/-- C3 (counterexample): on
`[default, "https://x", "https://x", "https://y"]` the emitter does not
output the two lines the claim describes. -/
theorem example_directives_counterexample :
    emitIndexDirectives DEFAULT_INDEX_URL
        [DEFAULT_INDEX_URL, "https://x", "https://x", "https://y"]
      ≠ ["--index-url https://x", "--extra-index-url https://y"] := by
  decide

/-- C3 (amended): on `[default, "https://x", "https://x", "https://y"]`
the emitter outputs exactly three lines, each reading `--extra-index-url`
followed by the default URL: the positional labelling pairs `--index-url`
only with position 0 (skipped here, being the default), nothing is
deduplicated, and each line names `index_urls[0]` instead of its own
entry. -/
theorem example_directives_eval :
    emitIndexDirectives DEFAULT_INDEX_URL
        [DEFAULT_INDEX_URL, "https://x", "https://x", "https://y"]
      = ["--extra-index-url " ++ DEFAULT_INDEX_URL,
         "--extra-index-url " ++ DEFAULT_INDEX_URL,
         "--extra-index-url " ++ DEFAULT_INDEX_URL] := rfl

/-! ## Claim C4: ordering of the resolved set -/

/-- C4: the formatting sort returns a permutation of the resolved set in
which every editable entry precedes every non-editable one; within a group
(equal editable flag) the lower-cased textual representations are
non-decreasing in code-point order; and the sort is stable: any selection
of entries with pairwise identical sort keys keeps its relative input
order. -/
theorem formatted_results_sorted_stable (results : List Result) :
    (formattedResults results).Perm results
    ∧ (formattedResults results).Pairwise
        (fun a b => b.editable = true → a.editable = true)
    ∧ (formattedResults results).Pairwise
        (fun a b => a.editable = b.editable →
          pyStrLe (pyLower a.reqStr) (pyLower b.reqStr) = true)
    ∧ (∀ c : List Result, c.Sublist results →
        (∀ a ∈ c, ∀ b ∈ c, sortKey a = sortKey b) →
        c.Sublist (formattedResults results)) := by
  haveI : IsTotal Result resultLe := ⟨resultLe_total⟩
  haveI : IsTrans Result resultLe := ⟨resultLe_trans⟩
  have hsorted : (formattedResults results).Pairwise resultLe :=
    List.sorted_insertionSort resultLe results
  refine ⟨List.perm_insertionSort resultLe results,
    hsorted.imp (fun hab hb => resultLe_editable hab hb),
    hsorted.imp (fun hab heq => resultLe_text hab heq),
    fun c hc hkeys => ?_⟩
  exact List.sublist_insertionSort
    (List.pairwise_of_forall_mem_list
      (fun a ha b hb => resultLe_of_sortKey_eq (hkeys a ha b hb))) hc

/-- C4 (witness): `wRes1` and `wRes2` share one sort key; in the resolved
set `[wRes0, wRes1, wRes2]` they keep their relative order through the
sort. -/
theorem formatted_results_sorted_stable_witness :
    [wRes1, wRes2].Sublist (formattedResults [wRes0, wRes1, wRes2]) :=
  (formatted_results_sorted_stable [wRes0, wRes1, wRes2]).2.2.2
    [wRes1, wRes2] (by decide) (by decide)

/-! ## Claim C5: annotation text -/

/-- C5 (counterexample): with parent set `{"a", "B"}` the annotation of the
code is `via B, a` — Python `sorted` compares code points, so `B` (66)
sorts before `a` (97) — while the case-insensitive order of the claim
would give `via a, B`. -/
theorem annotation_case_counterexample :
    annotationFor true (fun _ => ["a", "B"]) ⟨"p", "p==1.0", false⟩
      ≠ some ("via " ++ specAnnotationJoin ["a", "B"]) := by
  decide

/-- C5 (amended): the annotation text is the **case-sensitive**
(code-point) lexicographically sorted, comma-joined list of parent names,
prefixed with `via `; when the parent set is empty the annotation is empty
and the rendered line is the bare requirement text, with no `# via`
suffix. -/
theorem annotation_sorted_case_sensitive (rd : String → List String)
    (r : Result) :
    (∃ l : List String, l.Perm (rd r.name)
      ∧ l.Pairwise (fun a b => pyStrLe a b = true)
      ∧ annotationFor true rd r
          = some (if String.intercalate ", " l = "" then ""
                  else "via " ++ String.intercalate ", " l))
    ∧ (rd r.name = [] →
        format_requirement r (annotationFor true rd r) = r.reqStr) := by
  haveI : IsTotal String (fun a b => pyStrLe a b = true) :=
    ⟨fun a b => by
      rcases Bool.or_eq_true_iff.mp (pyStrLe_total a b) with h | h
      · exact Or.inl h
      · exact Or.inr h⟩
  haveI : IsTrans String (fun a b => pyStrLe a b = true) :=
    ⟨fun a b c => pyStrLe_trans a b c⟩
  constructor
  · refine ⟨pySortedStrings (rd r.name),
      List.perm_insertionSort _ _,
      List.sorted_insertionSort _ _, ?_⟩
    simp only [annotationFor, annotationJoin, if_true]
    split_ifs with hje
    · simp [hje]
    · rfl
  · intro h
    simp [annotationFor, annotationJoin, pySortedStrings, h,
      format_requirement, String.intercalate]

/-- C5 (witness): a result with no recorded parents renders as the bare
requirement text. -/
theorem annotation_sorted_case_sensitive_witness :
    format_requirement ⟨"p", "p==1.0", false⟩
        (annotationFor true (fun _ => []) ⟨"p", "p==1.0", false⟩)
      = "p==1.0" :=
  (annotation_sorted_case_sensitive (fun _ => []) ⟨"p", "p==1.0", false⟩).2 rfl

/-! ## Claim C6: resolution failure aborts with no output -/

/-- C6: when the resolver raises (`PipToolsError`), `cli` exits with
status 2 and its emitted stream contains no document line at all — no
header, no index directive, no requirement line (only diagnostics on the
debug and error channels). -/
theorem resolution_failure_no_output (env : RunEnv) (cfg : Config)
    (e : String) (h : env.resolve = .error e) :
    (cli env cfg).1 = some 2
    ∧ ∀ l ∈ (cli env cfg).2, l.isDocument = false := by
  by_cases hs : cfg.srcFile = ""
  · refine ⟨by simp [cli, hs], ?_⟩
    intro l hl
    simp [cli, hs] at hl
    subst hl
    rfl
  · have hc : cli env cfg
        = (some 2, (indexDebugLines (configuredIndexUrls env cfg)
            ++ findLinksDebugLines (env.initialFindLinks ++ cfg.findLinks))
            ++ [OutLine.error e]) := by
      simp [cli, hs, h]
    rw [hc]
    refine ⟨rfl, ?_⟩
    intro l hl
    rcases List.mem_append.mp hl with hl' | hl'
    · rcases List.mem_append.mp hl' with hd | hd
      · exact indexDebugLines_no_document _ l hd
      · exact findLinksDebugLines_no_document _ l hd
    · have : l = OutLine.error e := List.mem_singleton.mp hl'
      subst this
      rfl

/-- C6 (witness): a concrete failing run exits with status 2. -/
theorem resolution_failure_no_output_witness :
    (cli sampleFailEnv sampleCfg).1 = some 2 :=
  (resolution_failure_no_output sampleFailEnv sampleCfg
    "Could not find a version that matches flake8" rfl).1

/-! ## Claim C7: determinism of the formatting stage -/

/-- C7: the run is a pure function of its inputs — two runs with the same
configuration and equal collaborator data (default index, initial finder
state, resolver outcome, and pointwise-equal reverse-dependency cache)
emit identical exit codes and byte-identical line streams. -/
theorem run_deterministic (cfg : Config) (env₁ env₂ : RunEnv)
    (h₁ : env₁.defaultIndexUrl = env₂.defaultIndexUrl)
    (h₂ : env₁.initialIndexUrls = env₂.initialIndexUrls)
    (h₃ : env₁.initialFindLinks = env₂.initialFindLinks)
    (h₄ : env₁.resolve = env₂.resolve)
    (h₅ : ∀ n, env₁.revDeps n = env₂.revDeps n) :
    cli env₁ cfg = cli env₂ cfg := by
  have he : env₁ = env₂ := by
    obtain ⟨d₁, i₁, f₁, r₁, rd₁⟩ := env₁
    obtain ⟨d₂, i₂, f₂, r₂, rd₂⟩ := env₂
    dsimp only at h₁ h₂ h₃ h₄ h₅
    subst h₁ h₂ h₃ h₄
    rw [funext h₅]
  rw [he]

/-- C7 (witness): the theorem applied to one concrete collaborator record
twice. -/
theorem run_deterministic_witness :
    cli sampleOkEnv sampleCfg = cli sampleOkEnv sampleCfg :=
  run_deterministic sampleCfg sampleOkEnv sampleOkEnv rfl rfl rfl rfl
    (fun _ => rfl)

/-! ## Claim C8: the pip version gate -/

/-- C8: when the installed pip version, read as its first two dotted
integer components, is lexicographically below `(6, 1)`, the program
prints the upgrade message and exits with status 4 — for every
configuration and every collaborator record, so no pipeline stage (setup,
parsing, resolution or formatting) contributes anything to the
behaviour. -/
theorem old_pip_version_gate (comps : List Nat) (vstr : String)
    (env : RunEnv) (cfg : Config) (h : comps.take 2 < [6, 1]) :
    pipCompileMain comps vstr env cfg
      = (some 4, [OutLine.plain (pipUpgradeMessage vstr)]) := by
  have hgate : ¬ ([6, 1] ≤ comps.take 2) := not_le.mpr h
  simp [pipCompileMain, hgate]

/-- C8 (witness): pip 6.0.8 is rejected with exit status 4. -/
theorem old_pip_version_gate_witness :
    pipCompileMain [6, 0] "6.0.8" sampleOkEnv sampleCfg
      = (some 4, [OutLine.plain (pipUpgradeMessage "6.0.8")]) :=
  old_pip_version_gate [6, 0] "6.0.8" sampleOkEnv sampleCfg (by decide)

/-! ## Claim C9: the cache is irrelevant without annotations -/

/-- C9: with annotations disabled the reverse-dependency map never
influences the output — two runs that differ only in the cache contents
emit identical exit codes and identical line streams. -/
theorem no_annotate_cache_irrelevant (env : RunEnv) (cfg : Config)
    (rd₁ rd₂ : String → List String) (h : cfg.annotate = false) :
    cli { env with revDeps := rd₁ } cfg
      = cli { env with revDeps := rd₂ } cfg := by
  obtain ⟨d, iu, ifl, res, rd⟩ := env
  by_cases hs : cfg.srcFile = ""
  · simp [cli, hs]
  · cases res with
    | error e => rfl
    | ok results => simp [cli, hs, annotationFor, h, configuredIndexUrls]

/-- C9 (witness): two concrete caches, one successful run each, identical
output. -/
theorem no_annotate_cache_irrelevant_witness :
    cli { sampleOkEnv with revDeps := fun _ => ["a"] } sampleCfg
      = cli { sampleOkEnv with revDeps := fun _ => ["b"] } sampleCfg :=
  no_annotate_cache_irrelevant sampleOkEnv sampleCfg
    (fun _ => ["a"]) (fun _ => ["b"]) rfl

/-! ## Claim C10: dry-run only appends a warning -/

/-- C10: on a successful run, setting the dry-run flag changes nothing but
appending the single warning line `Dry-run, so nothing updated.` after the
complete output; exit code and every other emitted line are identical to
the normal run. -/
theorem dry_run_appends_warning (env : RunEnv) (cfg : Config)
    (results : List Result) (hres : env.resolve = .ok results)
    (hsrc : ¬ cfg.srcFile = "") :
    cli env { cfg with dryRun := true }
      = ((cli env { cfg with dryRun := false }).1,
         (cli env { cfg with dryRun := false }).2
           ++ [OutLine.warning "Dry-run, so nothing updated."]) := by
  simp [cli, hsrc, hres, configuredIndexUrls]

/-- C10 (witness): a concrete successful run with dry-run set emits the
normal document plus the warning line. -/
theorem dry_run_appends_warning_witness :
    cli sampleOkEnv { sampleCfg with dryRun := true }
      = ((cli sampleOkEnv { sampleCfg with dryRun := false }).1,
         (cli sampleOkEnv { sampleCfg with dryRun := false }).2
           ++ [OutLine.warning "Dry-run, so nothing updated."]) :=
  dry_run_appends_warning sampleOkEnv sampleCfg [wRes0, wRes1, wRes2] rfl
    (by decide)
